import Mathlib

/-!
# jx: `jx step boot vault` and `jx create git user`

A shallow embedding of

* `pkg/cmd/step/boot/step_boot_vault.go` (`StepBootVaultOptions.Run`,
  `createIngressConfig`, `verifyVaultIngress`, `readYamlTemplate`), and
* `pkg/jx/cmd/create_git_user_account.go` (`CreateGitUserOptions.Run`).

Both commands are sequences of calls to external collaborators (the cluster
client, the file system, `kubectl`, the vault operator).  A collaborator is a
field of a `World` record giving the answer it returns; every call a command
makes is appended, in program order, to a trace of `Event`s.  A command returns
its Go `error` (`none` is `nil`) together with that trace, so that what was
invoked before a failure stays observable.
-/

set_option autoImplicit false
set_option linter.unusedVariables false

/-- Go `error` values: an error handed back by a collaborator, one built with
`fmt.Errorf`, one wrapped by `errors.Wrap`/`errors.Wrapf`, and the value of
`config.MissingRequirement(property, fileName)`, a helper declared outside the
sources that the spec gives as the error naming the field and the file. -/
inductive Err where
  | external (msg : String)
  | errorf (msg : String)
  | wrap (cause : Err) (msg : String)
  | missingRequirement (property : String) (fileName : String)
  deriving DecidableEq, Repr

/-- Go `strings.HasSuffix`, on the characters of the two strings. -/
def strings.HasSuffix (s suffix : String) : Bool :=
  suffix.data.isSuffixOf s.data

/-- The search of `strings.Contains` on characters: `substr` is a prefix of the
text at some position. -/
def strings.containsChars : List Char → List Char → Bool
  | [], substr => substr.isPrefixOf []
  | c :: s, substr => substr.isPrefixOf (c :: s) || strings.containsChars s substr

/-- Go `strings.Contains`: the characters of `substr` occur contiguously in `s`. -/
def strings.Contains (s substr : String) : Bool :=
  strings.containsChars s.data substr.data

namespace boot

/-! ## Constants and types of the packages the step imports -/

/-- Modelled from the spec: `config.SecretStorageTypeVault` is declared outside
the sources; the spec writes the managed kind as `vault`. -/
def config.SecretStorageTypeVault : String := "vault"

/-- Modelled from the spec: `cloud.GKE` is declared outside the sources; the
spec's scenario writes the provider as `gke`. -/
def cloud.GKE : String := "gke"

/-- Modelled from the spec: `cloud.AWS` is declared outside the sources; the
spec's scenario writes the provider as `aws`. -/
def cloud.AWS : String := "aws"

/-- Modelled from the spec: `cloud.EKS` is declared outside the sources; a
second provider of the region family. -/
def cloud.EKS : String := "eks"

/-- Modelled from the spec: `kube.ConfigMapNameJXInstallConfig` is declared
outside the sources; the name of the shared cluster configuration document. -/
def kube.ConfigMapNameJXInstallConfig : String := "jx-install-config"

/-- Modelled from the spec: `kube.SystemVaultName` is declared outside the
sources; the key `systemInstanceNameKey` of the persisted document. -/
def kube.SystemVaultName : String := "systemVaultName"

/-- Modelled from the spec: `secrets.SecretsLocationKey` is declared outside the
sources; the key `secretsLocationKey` of the persisted document. -/
def secrets.SecretsLocationKey : String := "secretsLocation"

/-- Modelled from the spec: `secrets.VaultLocationKind` is declared outside the
sources; the spec records the backend kind as `"vault"`. -/
def secrets.VaultLocationKind : String := "vault"

/-- Modelled from the spec: `util.DefaultWritePermissions` is declared outside
the sources; the mode of the transient manifest file (octal 0760). -/
def util.DefaultWritePermissions : Nat := 496

/-- Modelled from the spec: `util.ColorInfo` is declared outside the sources;
colourised output is out of scope, so the text is kept as it is. -/
def util.ColorInfo (s : String) : String := s

/-- Modelled from the spec: `config.TLSConfig` is declared outside the sources;
the spec's `ingress.tls{enabled, email}`. -/
structure config.TLSConfig where
  Enabled : Bool
  Email : String
  deriving DecidableEq, Repr

/-- Modelled from the spec: `config.IngressConfig` is declared outside the
sources; the spec's `ingress.domain` and `ingress.tls`. -/
structure config.IngressConfig where
  Domain : String
  TLS : config.TLSConfig
  deriving DecidableEq, Repr

/-- Modelled from the spec: `config.ClusterConfig` is declared outside the
sources; the spec's `cluster.provider`, `cluster.projectID`, `cluster.zone` and
`cluster.region`, and the vault name `Run` writes back. -/
structure config.ClusterConfig where
  Provider : String
  ProjectID : String
  Zone : String
  Region : String
  VaultName : String
  deriving DecidableEq, Repr

/-- Modelled from the spec: `config.RequirementsConfig` is declared outside the
sources; the requirements document with its `secretStorageKind`. -/
structure config.RequirementsConfig where
  SecretStorage : String
  Cluster : config.ClusterConfig
  Ingress : config.IngressConfig
  deriving DecidableEq, Repr

/-- Modelled from the spec: `kube.IngressConfig` is declared outside the
sources; its fields are the four `createIngressConfig` sets. -/
structure kube.IngressConfig where
  Domain : String
  Exposer : String
  Email : String
  TLS : Bool
  deriving DecidableEq, Repr

/-- Modelled from the spec: `opts.CommonOptions` is declared outside the
sources; the two fields the step writes, batch mode and the namespace. -/
structure opts.CommonOptions where
  BatchMode : Bool
  devNamespace : String
  deriving DecidableEq, Repr

/-- Modelled from the spec: `SetDevNamespace` is declared outside the sources
and the spec leaves it to the surrounding code; it is taken to record the
namespace in the options. -/
def opts.CommonOptions.SetDevNamespace (o : opts.CommonOptions) (ns : String) :
    opts.CommonOptions :=
  { o with devNamespace := ns }

/-- Modelled from the spec: `create.CreateVaultOptions` is declared outside the
sources; the fields the step reads or writes, the options embedded through
`CreateOptions` being the field `CommonOptions`. -/
structure create.CreateVaultOptions where
  CommonOptions : opts.CommonOptions
  Namespace : String
  RecreateVaultBucket : Bool
  IngressConfig : kube.IngressConfig
  NoExposeVault : Bool
  GKEProjectID : String
  GKEZone : String
  DynamoDBRegion : String
  KMSRegion : String
  S3Region : String
  deriving DecidableEq, Repr

/-- The `Data` of a `corev1.ConfigMap`: a Go `map[string]string`, kept as an
association list with at most one pair for a key. -/
abbrev ConfigMapData := List (String × String)

/-- Go map assignment `m[k] = v`. -/
def ConfigMapData.set (m : ConfigMapData) (k v : String) : ConfigMapData :=
  (k, v) :: m.filter (fun p => p.1 != k)

/-- Go map lookup `m[k]`, `none` when the key is absent. -/
def ConfigMapData.get (m : ConfigMapData) (k : String) : Option String :=
  (m.find? (fun p => p.1 == k)).map (fun p => p.2)

/-- The handle `kubernetes.Interface` returned by `KubeClient()`. -/
abbrev KubeClientHandle := Nat

/-- The handle returned by `VaultOperatorClient()`. -/
abbrev VaultClientHandle := Nat

/-- A parsed `text/template`. -/
abbrev Template := String

/-- The `chartutil.Values` trees bound into the template context. -/
abbrev Values := List (String × String)

/-- The command line options `StepBootVaultOptions`. -/
structure StepBootVaultOptions where
  CommonOptions : opts.CommonOptions
  Dir : String
  Namespace : String
  deriving DecidableEq, Repr

/-! ## Collaborators and the trace of their invocations -/

/-- One invocation of a collaborator, with the arguments it was given. -/
inductive Event where
  | GetDeployNamespace (namespaceFlag : String)
  | LoadRequirementsConfig (dir : String)
  | KubeClient
  | SystemVaultName
  | FileExists (fileName : String)
  | ParseFiles (templateFile : String)
  | TempFile (dir : String) (pattern : String)
  | WriteFile (fileName : String) (data : String) (perm : Nat)
  | RunCommand (name : String) (args : List String)
  | InstallVaultOperator (o : opts.CommonOptions) (ns : String)
  | VaultOperatorClient (cvo : create.CreateVaultOptions)
  | ModifyConfigMap (ns : String) (name : String) (data : ConfigMapData)
  | FindVault (client : VaultClientHandle) (name : String) (ns : String)
  | CreateVault (cvo : create.CreateVaultOptions) (client : VaultClientHandle)
      (name : String) (provider : String)
  | Infof (msg : String)
  | Warnf (msg : String)
  deriving DecidableEq, Repr

/-- The answers of the collaborators of the step.  `Join` is `filepath.Join`,
`ParseFiles`, `ToMap`, `EnvironmentMap` and `Execute` are the template engine
and the requirements helpers used by `readYamlTemplate`, `GetConfigMap` and
`SaveConfigMap` are the cluster's config map store. -/
structure World where
  GetDeployNamespace : String → Except Err String
  LoadRequirementsConfig : String → Except Err (config.RequirementsConfig × String)
  KubeClient : Except Err KubeClientHandle
  SystemVaultName : Except Err String
  Join : String → String → String
  FileExists : String → Except Err Bool
  ParseFiles : String → Except Err Template
  ToMap : config.RequirementsConfig → Except Err Values
  EnvironmentMap : config.RequirementsConfig → Values
  Execute : Template → Values → Values → Except Err String
  TempFile : String → String → Except Err String
  WriteFile : String → String → Nat → Option Err
  RunCommand : String → List String → Option Err
  InstallVaultOperator : opts.CommonOptions → String → Option Err
  VaultOperatorClient : create.CreateVaultOptions → Except Err VaultClientHandle
  GetConfigMap : String → String → Option ConfigMapData
  SaveConfigMap : String → String → ConfigMapData → Option Err
  FindVault : VaultClientHandle → String → String → Bool
  CreateVault : create.CreateVaultOptions → VaultClientHandle → String → String → Option Err

/-- The cluster mutations of the step: `kubectl` runs, the operator install,
the config map write and the vault creation. -/
def Event.isMutation : Event → Bool
  | .RunCommand _ _ => true
  | .InstallVaultOperator _ _ => true
  | .ModifyConfigMap _ _ _ => true
  | .CreateVault _ _ _ _ => true
  | _ => false

/-- The three provisioning calls that follow provider configuration. -/
def Event.isProvisioning : Event → Bool
  | .InstallVaultOperator _ _ => true
  | .ModifyConfigMap _ _ _ => true
  | .CreateVault _ _ _ _ => true
  | _ => false

/-- A `CreateVault` invocation. -/
def Event.isCreateVault : Event → Bool
  | .CreateVault _ _ _ _ => true
  | _ => false

/-- What a command returns: its `error` and the trace of what it invoked. -/
structure RunResult where
  err : Option Err
  trace : List Event
  deriving DecidableEq, Repr

/-- What `verifyVaultIngress` returns: the boolean, the `error`, and the trace. -/
structure VerifyResult where
  attempted : Bool
  err : Option Err
  trace : List Event
  deriving DecidableEq, Repr

/-- What the provider block of `Run` leaves: the updated options, the `error`
it returns (if any) and what it logged. -/
structure ProviderResult where
  cvo : create.CreateVaultOptions
  err : Option Err
  trace : List Event
  deriving DecidableEq, Repr

/-! ## The step -/

/-- Go `readYamlTemplate`: parse the template file, turn the requirements into
a map, execute the template against `Requirements` and `Environments`.  The
second message leaves out the `%v` rendering of the requirements. -/
def readYamlTemplate (w : World) (templateFile : String)
    (requirements : config.RequirementsConfig) : Except Err String :=
  match w.ParseFiles templateFile with
  | .error err => .error (.wrap err ("failed to parse Secrets template: " ++ templateFile))
  | .ok tmpl =>
  match w.ToMap requirements with
  | .error err => .error (.wrap err "failed turn requirements into a map")
  | .ok requirementsMap =>
  match w.Execute tmpl requirementsMap (w.EnvironmentMap requirements) with
  | .error err => .error (.wrap err ("failed to execute Secrets template: " ++ templateFile))
  | .ok data => .ok data

/-- Go `createIngressConfig`. -/
def StepBootVaultOptions.createIngressConfig (o : StepBootVaultOptions)
    (requirements : config.RequirementsConfig) : Except Err kube.IngressConfig :=
  let i := requirements.Ingress
  let tls := i.TLS
  let ic : kube.IngressConfig :=
    { Domain := i.Domain, Exposer := "Ingress", Email := tls.Email, TLS := tls.Enabled }
  .ok ic

/-- Go `verifyVaultIngress`: look for `vault-ing.tmpl.yaml` under `Dir`; when it
is there render it, save it to a temporary file and `kubectl apply` it. -/
def StepBootVaultOptions.verifyVaultIngress (o : StepBootVaultOptions) (w : World)
    (requirements : config.RequirementsConfig) (kubeClient : KubeClientHandle)
    (ns : String) (systemVaultName : String) : VerifyResult :=
  let fileName := w.Join o.Dir "vault-ing.tmpl.yaml"
  let t := [Event.FileExists fileName]
  match w.FileExists fileName with
  | .error err => ⟨false, some (.wrap err ("failed to check if file exists " ++ fileName)), t⟩
  | .ok false => ⟨false, none, t ++ [Event.Warnf ("failed to find file " ++ fileName ++ "\n")]⟩
  | .ok true =>
  let t := t ++ [Event.ParseFiles fileName]
  match readYamlTemplate w fileName requirements with
  | .error err =>
    ⟨true, some (.wrap err ("failed to load vault ingress template file " ++ fileName)), t⟩
  | .ok data =>
  let t := t ++ [Event.Infof ("applying vault ingress in namespace " ++ util.ColorInfo ns
    ++ " for vault name " ++ util.ColorInfo systemVaultName ++ "\n")]
  let t := t ++ [Event.TempFile "" "vault-ingress-"]
  match w.TempFile "" "vault-ingress-" with
  | .error err => ⟨true, some (.wrap err "failed to create temporary file for vault YAML"), t⟩
  | .ok tmpFileName =>
  let t := t ++ [Event.WriteFile tmpFileName data util.DefaultWritePermissions]
  match w.WriteFile tmpFileName data util.DefaultWritePermissions with
  | some err =>
    ⟨true, some (.wrap err ("failed to save vault ingress YAML file " ++ tmpFileName)), t⟩
  | none =>
  let args := ["apply", "--force", "-f", tmpFileName, "-n", ns]
  let t := t ++ [Event.RunCommand "kubectl" args]
  match w.RunCommand "kubectl" args with
  | some err => ⟨true, some (.wrap err "failed to apply vault ingress YAML"), t⟩
  | none => ⟨true, none, t⟩

/-- Modelled from the spec: `kube.DefaultModifyConfigMap` is declared outside
the sources; the spec gives it as the read/modify-write of a small key/value
document: the stored data (empty when there is none) is handed to the
callback and the outcome is saved. -/
def kube.DefaultModifyConfigMap (w : World) (kubeClient : KubeClientHandle)
    (ns : String) (name : String) (fn : ConfigMapData → Except Err ConfigMapData) :
    Option Err × List Event :=
  match fn ((w.GetConfigMap ns name).getD []) with
  | .error err => (some err, [])
  | .ok data => (w.SaveConfigMap ns name data, [Event.ModifyConfigMap ns name data])

/-- The provider block of `Run` (the `if provider == cloud.GKE ... else if
provider == cloud.AWS || provider == cloud.EKS ...` statement): fill the
provider fields of the vault options from the requirements and fail with
`config.MissingRequirement` on an empty one. -/
def StepBootVaultOptions.providerConfig (cvo : create.CreateVaultOptions)
    (requirements : config.RequirementsConfig) (requirementsFile : String) : ProviderResult :=
  let provider := requirements.Cluster.Provider
  if provider = cloud.GKE then
    let cvo := if cvo.GKEProjectID = "" then
      { cvo with GKEProjectID := requirements.Cluster.ProjectID } else cvo
    if cvo.GKEProjectID = "" then
      ⟨cvo, some (.missingRequirement "project" requirementsFile), []⟩
    else
    let cvo := if cvo.GKEZone = "" then
      { cvo with GKEZone := requirements.Cluster.Zone } else cvo
    if cvo.GKEZone = "" then
      ⟨cvo, some (.missingRequirement "zone" requirementsFile), []⟩
    else ⟨cvo, none, []⟩
  else if provider = cloud.AWS ∨ provider = cloud.EKS then
    let defaultRegion := requirements.Cluster.Region
    let t : List Event := []
    let t := if cvo.DynamoDBRegion = "" then
      t ++ [Event.Infof ("Region not specified for DynamoDB, defaulting to "
        ++ util.ColorInfo defaultRegion)] else t
    let cvo := if cvo.DynamoDBRegion = "" then
      { cvo with DynamoDBRegion := defaultRegion } else cvo
    let t := if cvo.KMSRegion = "" then
      t ++ [Event.Infof ("Region not specified for KMS, defaulting to "
        ++ util.ColorInfo defaultRegion)] else t
    let cvo := if cvo.KMSRegion = "" then
      { cvo with KMSRegion := defaultRegion } else cvo
    let t := if cvo.S3Region = "" then
      t ++ [Event.Infof ("Region not specified for S3, defaulting to "
        ++ util.ColorInfo defaultRegion)] else t
    let cvo := if cvo.S3Region = "" then
      { cvo with S3Region := defaultRegion } else cvo
    if defaultRegion = "" then
      ⟨cvo, some (.missingRequirement "region" requirementsFile), t⟩
    else ⟨cvo, none, t⟩
  else ⟨cvo, none, []⟩

/-- The vault options `cvo` of `Run` before the provider block: `copyOptions`
is the copy of the common options put in batch mode, `noExposeVault` is reset to
`false` whatever `verifyVaultIngress` returned, the struct literal leaves the
provider fields empty, and `cvo.SetDevNamespace(ns)` follows. -/
def StepBootVaultOptions.newVaultOptions (commonOptions : opts.CommonOptions) (ns : String)
    (ic : kube.IngressConfig) (noExposeVault : Bool) : create.CreateVaultOptions :=
  let copyOptions := { commonOptions with BatchMode := true }
  let noExposeVault := false
  let cvo : create.CreateVaultOptions :=
    { CommonOptions := copyOptions, Namespace := ns, RecreateVaultBucket := true,
      IngressConfig := ic, NoExposeVault := noExposeVault, GKEProjectID := "", GKEZone := "",
      DynamoDBRegion := "", KMSRegion := "", S3Region := "" }
  { cvo with CommonOptions := cvo.CommonOptions.SetDevNamespace ns }

/-- The callback `Run` hands to `kube.DefaultModifyConfigMap`: it stores the
system vault name and the secrets location in the config map data. -/
def StepBootVaultOptions.storeSystemVault (systemVaultName : String)
    (configMap : ConfigMapData) : Except Err ConfigMapData :=
  let configMap := configMap.set kube.SystemVaultName systemVaultName
  let configMap := configMap.set secrets.SecretsLocationKey secrets.VaultLocationKind
  .ok configMap

/-- The assignment `requirements.Cluster.VaultName = systemVaultName` of `Run`. -/
def withVaultName (requirements : config.RequirementsConfig) (systemVaultName : String) :
    config.RequirementsConfig :=
  { requirements with Cluster := { requirements.Cluster with VaultName := systemVaultName } }

/-- Go `StepBootVaultOptions.Run`.  `commonOptions` is `*o.CommonOptions` after
`o.SetDevNamespace(ns)`; `copyOptions` is the copy handed to the vault options. -/
def StepBootVaultOptions.Run (o : StepBootVaultOptions) (w : World) : RunResult :=
  let t := [Event.GetDeployNamespace o.Namespace]
  match w.GetDeployNamespace o.Namespace with
  | .error err => ⟨some err, t⟩
  | .ok ns =>
  let commonOptions := o.CommonOptions.SetDevNamespace ns
  let t := t ++ [Event.LoadRequirementsConfig o.Dir]
  match w.LoadRequirementsConfig o.Dir with
  | .error err => ⟨some err, t⟩
  | .ok (requirements, requirementsFile) =>
  if requirements.SecretStorage ≠ config.SecretStorageTypeVault then
    ⟨none, t ++ [Event.Infof ("not attempting to boot Vault as using secret storage: "
      ++ util.ColorInfo requirements.SecretStorage ++ "\n")]⟩
  else
  let t := t ++ [Event.KubeClient]
  match w.KubeClient with
  | .error err => ⟨some (.wrap err "failed to create kubernetes client"), t⟩
  | .ok kubeClient =>
  let t := t ++ [Event.SystemVaultName]
  match w.SystemVaultName with
  | .error err => ⟨some (.wrap err "building the system vault name from cluster name"), t⟩
  | .ok systemVaultName =>
  let requirements := withVaultName requirements systemVaultName
  let v := o.verifyVaultIngress w requirements kubeClient ns systemVaultName
  let noExposeVault := v.attempted
  let t := t ++ v.trace
  match v.err with
  | some err => ⟨some err, t⟩
  | none =>
  match o.createIngressConfig requirements with
  | .error err => ⟨some err, t⟩
  | .ok ic =>
  let cvo := StepBootVaultOptions.newVaultOptions commonOptions ns ic noExposeVault
  let provider := requirements.Cluster.Provider
  let p := StepBootVaultOptions.providerConfig cvo requirements requirementsFile
  let cvo := p.cvo
  let t := t ++ p.trace
  match p.err with
  | some err => ⟨some err, t⟩
  | none =>
  let t := t ++ [Event.InstallVaultOperator commonOptions ns]
  match w.InstallVaultOperator commonOptions ns with
  | some err => ⟨some (.wrap err "unable to install vault operator"), t⟩
  | none =>
  let t := t ++ [Event.Infof ("vault operator installed in namespace " ++ ns)]
  let t := t ++ [Event.VaultOperatorClient cvo]
  match w.VaultOperatorClient cvo with
  | .error err => ⟨some err, t⟩
  | .ok vaultOperatorClient =>
  let m := kube.DefaultModifyConfigMap w kubeClient ns kube.ConfigMapNameJXInstallConfig
    (StepBootVaultOptions.storeSystemVault systemVaultName)
  let t := t ++ m.2
  match m.1 with
  | some err => ⟨some (.wrap err ("saving secrets location in ConfigMap "
      ++ kube.ConfigMapNameJXInstallConfig ++ " in namespace " ++ ns)), t⟩
  | none =>
  let t := t ++ [Event.Infof ("finding vault in namespace " ++ ns)]
  let t := t ++ [Event.FindVault vaultOperatorClient systemVaultName ns]
  if w.FindVault vaultOperatorClient systemVaultName ns then
    ⟨none, t ++ [Event.Infof ("System vault named " ++ util.ColorInfo systemVaultName
      ++ " in namespace " ++ util.ColorInfo ns ++ " already exists")]⟩
  else
  let t := t ++ [Event.Infof "Creating new system vault"]
  let t := t ++ [Event.CreateVault cvo vaultOperatorClient systemVaultName provider]
  match w.CreateVault cvo vaultOperatorClient systemVaultName provider with
  | some err => ⟨some err, t⟩
  | none =>
  ⟨none, t ++ [Event.Infof ("System vault created named " ++ util.ColorInfo systemVaultName
    ++ " in namespace " ++ util.ColorInfo ns ++ ".")]⟩

end boot

namespace cmd

/-! ## `jx create git user` -/

/-- Modelled from the spec: `ServerFlags` is declared outside the sources; the
flags naming the git server. -/
structure ServerFlags where
  ServerName : String
  ServerURL : String
  deriving DecidableEq, Repr

/-- Modelled from the spec: the server type returned by `findGitServer` is
declared outside the sources; the three fields the command reads. -/
structure AuthServer where
  Name : String
  URL : String
  Kind : String
  deriving DecidableEq, Repr

/-- The configuration held by the git auth config service. -/
abbrev AuthConfig := List AuthServer

/-- The handle of the cluster client returned by `CreateClient()`. -/
abbrev ClientHandle := Nat

/-- The command line options `CreateGitUserOptions`; `Args` is the field of the
embedded `CommonOptions`. -/
structure CreateGitUserOptions where
  Args : List String
  ServerFlags : ServerFlags
  Username : String
  Password : String
  ApiToken : String
  Email : String
  IsAdmin : Bool
  deriving DecidableEq, Repr

/-- One invocation of a collaborator, with the arguments it was given. -/
inductive Event where
  | CreateGitAuthConfigService
  | findGitServer (config : AuthConfig) (flags : ServerFlags)
  | CreateClient
  | GetDeploymentNames (client : ClientHandle) (ns : String) (filter : String)
  | waitForReadyPodForDeployment (client : ClientHandle) (ns : String) (name : String)
      (names : List String)
  | runCommand (name : String) (args : List String)
  | Printf (msg : String)
  deriving DecidableEq, Repr

/-- The answers of the collaborators of the command. -/
structure World where
  CreateGitAuthConfigService : Except Err AuthConfig
  findGitServer : AuthConfig → ServerFlags → Except Err AuthServer
  CreateClient : Except Err (ClientHandle × String)
  GetDeploymentNames : ClientHandle → String → String → Except Err (List String)
  waitForReadyPodForDeployment :
    ClientHandle → String → String → List String → Except Err String
  runCommand : String → List String → Option Err

/-- The interactions with the cluster: creating the client, the deployment
lookup, the wait for a ready pod and the remote exec. -/
def Event.isClusterInteraction : Event → Bool
  | .CreateClient => true
  | .GetDeploymentNames _ _ _ => true
  | .waitForReadyPodForDeployment _ _ _ _ => true
  | .runCommand _ _ => true
  | _ => false

/-- What the command returns: its `error` and the trace of what it invoked. -/
structure RunResult where
  err : Option Err
  trace : List Event
  deriving DecidableEq, Repr

/-- Modelled from the spec: `util.ColorInfo` is declared outside the sources;
colourised output is out of scope, so the text is kept as it is. -/
def util.ColorInfo (s : String) : String := s

/-- The options after the positional arguments are read: `args[0]` is the
username and `args[1]` the API token, when present. -/
def CreateGitUserOptions.readArgs (o : CreateGitUserOptions) : CreateGitUserOptions :=
  let args := o.Args
  let o := match args[0]? with
    | some a => { o with Username := a }
    | none => o
  let o := match args[1]? with
    | some a => { o with ApiToken := a }
    | none => o
  o

/-- The loop `for _, n := range names` of `Run`, entered with `name`: the first
candidate that ends in `-gitea` or is `gitea` replaces `name` and ends the
loop. -/
def CreateGitUserOptions.rangeNames (name : String) : List String → String
  | [] => name
  | n :: names =>
    if strings.HasSuffix n "-gitea" || n == "gitea" then n
    else CreateGitUserOptions.rangeNames name names

/-- The remote shell command `command` built by `Run`. -/
def CreateGitUserOptions.command (o : CreateGitUserOptions) : String :=
  let command := "/app/gitea/gitea admin create-user --admin --name " ++ o.Username
    ++ " --password " ++ o.Password
  let command := if o.Email ≠ "" then command ++ " --email " ++ o.Email else command
  let command := if o.IsAdmin then command ++ " --admin" else command
  command

/-- Go `CreateGitUserOptions.Run`. -/
def CreateGitUserOptions.Run (o : CreateGitUserOptions) (w : World) : RunResult :=
  let o := o.readArgs
  let t := [Event.CreateGitAuthConfigService]
  match w.CreateGitAuthConfigService with
  | .error err => ⟨some err, t⟩
  | .ok config =>
  let t := t ++ [Event.findGitServer config o.ServerFlags]
  match w.findGitServer config o.ServerFlags with
  | .error err => ⟨some err, t⟩
  | .ok server =>
  let kind := server.Kind
  if kind ≠ "gitea" then
    ⟨some (.errorf "Only git servers of kind gitea are supported right now"), t⟩
  else
  if o.Username = "" then ⟨some (.errorf "No Username specified"), t⟩
  else
  if o.Password = "" then ⟨some (.errorf "No password specified"), t⟩
  else
  let t := t ++ [Event.CreateClient]
  match w.CreateClient with
  | .error err => ⟨some err, t⟩
  | .ok (client, ns) =>
  let filter := "gitea"
  let t := t ++ [Event.GetDeploymentNames client ns filter]
  match w.GetDeploymentNames client ns filter with
  | .error err => ⟨some err, t⟩
  | .ok names =>
  match names with
  | [] => ⟨some (.errorf ("There are no Deployments matching filter: " ++ filter)), t⟩
  | name0 :: _ =>
  let name := name0
  let name := if names.length > 1 then CreateGitUserOptions.rangeNames name names else name
  let t := t ++ [Event.waitForReadyPodForDeployment client ns name names]
  match w.waitForReadyPodForDeployment client ns name names with
  | .error err => ⟨some err, t⟩
  | .ok pod =>
  if pod = "" then
    ⟨some (.errorf ("No pod found for namespace " ++ ns ++ " with name " ++ name)), t⟩
  else
  let command := o.command
  let args := ["exec", "-t", pod, "--", "/bin/sh", "-c", command]
  let t := t ++ [Event.runCommand "kubectl" args]
  match w.runCommand "kubectl" args with
  | some err => ⟨none, t⟩
  | none =>
  ⟨none, t ++ [Event.Printf ("Created user " ++ util.ColorInfo o.Username
    ++ " API Token for git server " ++ util.ColorInfo server.Name ++ " at "
    ++ util.ColorInfo server.URL ++ "\n")]⟩

end cmd

/-! ## Preconditions and sample inputs -/

namespace boot

/-- Every step of `Run` before the provider block succeeds on a vault
requirements document: the namespace is resolved, the requirements are loaded
and ask for vault, the client and the system vault name are obtained and
`verifyVaultIngress` returns no error. -/
structure ReachesProviderBlock (o : StepBootVaultOptions) (w : World) (ns : String)
    (requirements : config.RequirementsConfig) (requirementsFile : String)
    (kubeClient : KubeClientHandle) (systemVaultName : String) : Prop where
  namespace_ok : w.GetDeployNamespace o.Namespace = .ok ns
  load_ok : w.LoadRequirementsConfig o.Dir = .ok (requirements, requirementsFile)
  vault : requirements.SecretStorage = config.SecretStorageTypeVault
  client_ok : w.KubeClient = .ok kubeClient
  name_ok : w.SystemVaultName = .ok systemVaultName
  ingress_ok : (o.verifyVaultIngress w (withVaultName requirements systemVaultName)
    kubeClient ns systemVaultName).err = none

/-- Every step of `Run` before the existence query succeeds: the provider block
is reached and leaves the options `cvo` without an error, the operator is
installed, the operator client `vaultOperatorClient` is obtained and the config
map is saved. -/
structure ReachesFindVault (o : StepBootVaultOptions) (w : World) (ns : String)
    (requirements : config.RequirementsConfig) (requirementsFile : String)
    (kubeClient : KubeClientHandle) (systemVaultName : String) (ic : kube.IngressConfig)
    (cvo : create.CreateVaultOptions) (vaultOperatorClient : VaultClientHandle) : Prop where
  reaches : ReachesProviderBlock o w ns requirements requirementsFile kubeClient systemVaultName
  ingress_config : o.createIngressConfig (withVaultName requirements systemVaultName) = .ok ic
  provider_ok : (StepBootVaultOptions.providerConfig
    (StepBootVaultOptions.newVaultOptions (o.CommonOptions.SetDevNamespace ns) ns ic
      (o.verifyVaultIngress w (withVaultName requirements systemVaultName)
        kubeClient ns systemVaultName).attempted)
    (withVaultName requirements systemVaultName) requirementsFile).err = none
  options_eq : (StepBootVaultOptions.providerConfig
    (StepBootVaultOptions.newVaultOptions (o.CommonOptions.SetDevNamespace ns) ns ic
      (o.verifyVaultIngress w (withVaultName requirements systemVaultName)
        kubeClient ns systemVaultName).attempted)
    (withVaultName requirements systemVaultName) requirementsFile).cvo = cvo
  install_ok : w.InstallVaultOperator (o.CommonOptions.SetDevNamespace ns) ns = none
  operator_client_ok : w.VaultOperatorClient cvo = .ok vaultOperatorClient
  config_map_ok : (kube.DefaultModifyConfigMap w kubeClient ns kube.ConfigMapNameJXInstallConfig
    (StepBootVaultOptions.storeSystemVault systemVaultName)).1 = none

/-- A required field of the active provider is empty: project or zone for GKE,
region for AWS and EKS. -/
def ProviderFieldMissing (requirements : config.RequirementsConfig) : Prop :=
  (requirements.Cluster.Provider = cloud.GKE ∧
    (requirements.Cluster.ProjectID = "" ∨ requirements.Cluster.Zone = "")) ∨
  ((requirements.Cluster.Provider = cloud.AWS ∨ requirements.Cluster.Provider = cloud.EKS) ∧
    requirements.Cluster.Region = "")

/-- A sample world: every collaborator succeeds, the requirements file holds
`requirements`, the ingress template is there when `template` is set and the
system vault exists when `found` is set. -/
def sampleWorld (requirements : config.RequirementsConfig) (template : Bool) (found : Bool) :
    World :=
  { GetDeployNamespace := fun flag => .ok (if flag = "" then "jx" else flag)
    LoadRequirementsConfig := fun dir => .ok (requirements, dir ++ "/jx-requirements.yml")
    KubeClient := .ok 0
    SystemVaultName := .ok "jx-vault-demo"
    Join := fun dir name => dir ++ "/" ++ name
    FileExists := fun _ => .ok template
    ParseFiles := fun templateFile => .ok templateFile
    ToMap := fun _ => .ok []
    EnvironmentMap := fun _ => []
    Execute := fun tmpl _ _ => .ok tmpl
    TempFile := fun _ pattern => .ok ("/tmp/" ++ pattern ++ "1")
    WriteFile := fun _ _ _ => none
    RunCommand := fun _ _ => none
    InstallVaultOperator := fun _ _ => none
    VaultOperatorClient := fun _ => .ok 1
    GetConfigMap := fun _ _ => some [("secretsLocation", "local")]
    SaveConfigMap := fun _ _ _ => none
    FindVault := fun _ _ _ => found
    CreateVault := fun _ _ _ _ => none }

/-- Sample options: `jx step boot vault` run in the directory `env`. -/
def sampleOptions : StepBootVaultOptions :=
  { CommonOptions := { BatchMode := false, devNamespace := "" }, Dir := "env", Namespace := "" }

/-- Sample requirements for the given storage kind, provider and provider
fields. -/
def sampleRequirements (storage provider project zone region : String) :
    config.RequirementsConfig :=
  { SecretStorage := storage
    Cluster := { Provider := provider, ProjectID := project, Zone := zone, Region := region,
                 VaultName := "" }
    Ingress := { Domain := "example.com", TLS := { Enabled := true, Email := "ops@example.com" } } }

/-- The ingress configuration `createIngressConfig` builds from the sample
requirements. -/
def sampleIngressConfig : kube.IngressConfig :=
  { Domain := "example.com", Exposer := "Ingress", Email := "ops@example.com", TLS := true }

/-- The vault options `Run` builds in the namespace `jx` from sample requirements
of a region provider with region `region`. -/
def sampleVaultOptions (region : String) : create.CreateVaultOptions :=
  { CommonOptions := { BatchMode := true, devNamespace := "jx" }, Namespace := "jx",
    RecreateVaultBucket := true, IngressConfig := sampleIngressConfig, NoExposeVault := false,
    GKEProjectID := "", GKEZone := "", DynamoDBRegion := region, KMSRegion := region,
    S3Region := region }

end boot

namespace cmd

/-- The command gets as far as the deployment lookup: a server of kind `gitea`
is found, the username and the password are there, the cluster client `client`
is created for the namespace `ns` and the lookup lists `names`. -/
def ListsDeployments (o : CreateGitUserOptions) (w : World) (client : ClientHandle)
    (ns : String) (names : List String) : Prop :=
  ∃ config server, w.CreateGitAuthConfigService = .ok config ∧
    w.findGitServer config o.ServerFlags = .ok server ∧ server.Kind = "gitea" ∧
    o.readArgs.Username ≠ "" ∧ o.Password ≠ "" ∧
    w.CreateClient = .ok (client, ns) ∧
    w.GetDeploymentNames client ns "gitea" = .ok names

/-- A sample world for `jx create git user`: a server of kind `kind` is found,
the lookup lists `names`, the pod `gitea-0` is ready and the remote exec
returns `exec`. -/
def sampleWorld (kind : String) (names : List String) (exec : Option Err) : World :=
  { CreateGitAuthConfigService := .ok []
    findGitServer := fun _ _ => .ok { Name := "local", URL := "http://gitea.jx", Kind := kind }
    CreateClient := .ok (0, "jx")
    GetDeploymentNames := fun _ _ _ => .ok names
    waitForReadyPodForDeployment := fun _ _ _ _ => .ok "gitea-0"
    runCommand := fun _ _ => exec }

/-- Sample options: create the user `username` with the given password. -/
def sampleOptions (username password email : String) (isAdmin : Bool) : CreateGitUserOptions :=
  { Args := [], ServerFlags := { ServerName := "local", ServerURL := "" },
    Username := username, Password := password, ApiToken := "", Email := email,
    IsAdmin := isAdmin }

end cmd

/-! ## Theorems: `jx step boot vault` -/

namespace boot

/-- An event that is no cluster mutation is no provisioning call. -/
theorem isProvisioning_of_not_mutation (e : Event) (h : e.isMutation = false) :
    e.isProvisioning = false := by
  cases e <;> simp_all [Event.isMutation, Event.isProvisioning]

/-- An event that is no provisioning call is no `CreateVault`. -/
theorem isCreateVault_of_not_provisioning (e : Event) (h : e.isProvisioning = false) :
    e.isCreateVault = false := by
  cases e <;> simp_all [Event.isCreateVault, Event.isProvisioning]

/-- Reading a key just written gives the written value. -/
theorem ConfigMapData.get_set_same (m : ConfigMapData) (k v : String) :
    (m.set k v).get k = some v := by
  simp [ConfigMapData.get, ConfigMapData.set]

/-- Writing a key leaves the value read at another key unchanged. -/
theorem ConfigMapData.get_set_other (m : ConfigMapData) (k v j : String) (hne : k ≠ j) :
    (m.set k v).get j = m.get j := by
  simp only [ConfigMapData.get, ConfigMapData.set]
  rw [List.find?_cons_of_neg _ (by simpa using hne)]
  congr 1
  induction m with
  | nil => rfl
  | cons p m ih =>
    by_cases hp : p.1 = k
    · have hj : ¬ p.1 = j := fun hpj => hne (hp.symm.trans hpj)
      simp [List.filter_cons, hp, hj, hp ▸ hj, ih]
    · by_cases hj : p.1 = j
      · simp [List.filter_cons, hp, hj]
        simp [← hj, hp]
      · simp [List.filter_cons, hp, hj, ih]

/-- The trace of `verifyVaultIngress` holds none of the three provisioning
calls. -/
theorem verifyVaultIngress_not_provisioning (o : StepBootVaultOptions) (w : World)
    (requirements : config.RequirementsConfig) (kubeClient : KubeClientHandle)
    (ns systemVaultName : String) :
    ∀ e ∈ (o.verifyVaultIngress w requirements kubeClient ns systemVaultName).trace,
      e.isProvisioning = false := by
  unfold StepBootVaultOptions.verifyVaultIngress
  simp only []
  repeat' split
  all_goals simp [Event.isProvisioning]

@[simp]
theorem withVaultName_provider (requirements : config.RequirementsConfig) (name : String) :
    (withVaultName requirements name).Cluster.Provider = requirements.Cluster.Provider := rfl

@[simp]
theorem withVaultName_projectID (requirements : config.RequirementsConfig) (name : String) :
    (withVaultName requirements name).Cluster.ProjectID = requirements.Cluster.ProjectID := rfl

@[simp]
theorem withVaultName_zone (requirements : config.RequirementsConfig) (name : String) :
    (withVaultName requirements name).Cluster.Zone = requirements.Cluster.Zone := rfl

@[simp]
theorem withVaultName_region (requirements : config.RequirementsConfig) (name : String) :
    (withVaultName requirements name).Cluster.Region = requirements.Cluster.Region := rfl

/-- With the template file absent `verifyVaultIngress` stops after the
existence check and the warning. -/
theorem verifyVaultIngress_absent_eq (o : StepBootVaultOptions) (w : World)
    (requirements : config.RequirementsConfig) (kubeClient : KubeClientHandle)
    (ns systemVaultName : String)
    (habsent : w.FileExists (w.Join o.Dir "vault-ing.tmpl.yaml") = .ok false) :
    o.verifyVaultIngress w requirements kubeClient ns systemVaultName =
      ⟨false, none, [Event.FileExists (w.Join o.Dir "vault-ing.tmpl.yaml"),
        Event.Warnf ("failed to find file " ++ w.Join o.Dir "vault-ing.tmpl.yaml" ++ "\n")]⟩ := by
  simp [StepBootVaultOptions.verifyVaultIngress, habsent]

/-- With the template file present, a `verifyVaultIngress` that returns no error
has run `kubectl apply` on the temporary file. -/
theorem verifyVaultIngress_present_applies (o : StepBootVaultOptions) (w : World)
    (requirements : config.RequirementsConfig) (kubeClient : KubeClientHandle)
    (ns systemVaultName : String)
    (hpresent : w.FileExists (w.Join o.Dir "vault-ing.tmpl.yaml") = .ok true)
    (hok : (o.verifyVaultIngress w requirements kubeClient ns systemVaultName).err = none) :
    ∃ tmpFileName, Event.RunCommand "kubectl" ["apply", "--force", "-f", tmpFileName, "-n", ns]
      ∈ (o.verifyVaultIngress w requirements kubeClient ns systemVaultName).trace := by
  unfold StepBootVaultOptions.verifyVaultIngress at hok ⊢
  simp only [hpresent] at hok ⊢
  split at hok
  · simp at hok
  · split at hok
    · simp at hok
    · rename_i tmpFileName _
      refine ⟨tmpFileName, ?_⟩
      split at hok
      · simp at hok
      · split at hok
        · simp at hok
        · simp

/-- The provider block logs only: its trace holds no cluster mutation. -/
theorem providerConfig_not_mutation (cvo : create.CreateVaultOptions)
    (requirements : config.RequirementsConfig) (requirementsFile : String) :
    ∀ e ∈ (StepBootVaultOptions.providerConfig cvo requirements requirementsFile).trace,
      e.isMutation = false := by
  unfold StepBootVaultOptions.providerConfig
  simp only []
  split_ifs <;> simp [Event.isMutation]

/-- C3: on a vault requirements document whose steps before the provider
block succeed, `Run` fails with `MissingRequirement("project", file)` for GKE
with an empty project, with `MissingRequirement("zone", file)` for GKE with a
project and an empty zone, and with `MissingRequirement("region", file)` for AWS
or EKS with an empty region; when the fields of the active provider are filled
in, the provider block passes and `InstallVaultOperator` is reached, whatever
the fields of the other providers hold, and a provider outside the two families
has no field checked. -/
theorem run_missing_requirement_names_field (o : StepBootVaultOptions) (w : World)
    (ns : String) (requirements : config.RequirementsConfig) (requirementsFile : String)
    (kubeClient : KubeClientHandle) (systemVaultName : String)
    (h : ReachesProviderBlock o w ns requirements requirementsFile kubeClient systemVaultName) :
    (requirements.Cluster.Provider = cloud.GKE → requirements.Cluster.ProjectID = "" →
      (o.Run w).err = some (Err.missingRequirement "project" requirementsFile)) ∧
    (requirements.Cluster.Provider = cloud.GKE → requirements.Cluster.ProjectID ≠ "" →
      requirements.Cluster.Zone = "" →
      (o.Run w).err = some (Err.missingRequirement "zone" requirementsFile)) ∧
    (requirements.Cluster.Provider = cloud.AWS ∨ requirements.Cluster.Provider = cloud.EKS →
      requirements.Cluster.Region = "" →
      (o.Run w).err = some (Err.missingRequirement "region" requirementsFile)) ∧
    (requirements.Cluster.Provider = cloud.GKE → requirements.Cluster.ProjectID ≠ "" →
      requirements.Cluster.Zone ≠ "" →
      Event.InstallVaultOperator (o.CommonOptions.SetDevNamespace ns) ns ∈ (o.Run w).trace) ∧
    (requirements.Cluster.Provider = cloud.AWS ∨ requirements.Cluster.Provider = cloud.EKS →
      requirements.Cluster.Region ≠ "" →
      Event.InstallVaultOperator (o.CommonOptions.SetDevNamespace ns) ns ∈ (o.Run w).trace) ∧
    (requirements.Cluster.Provider ≠ cloud.GKE → requirements.Cluster.Provider ≠ cloud.AWS →
      requirements.Cluster.Provider ≠ cloud.EKS →
      Event.InstallVaultOperator (o.CommonOptions.SetDevNamespace ns) ns ∈ (o.Run w).trace) := by
  obtain ⟨h1, h2, h3, h4, h5, h6⟩ := h
  refine ⟨?_, ?_, ?_, ?_, ?_, ?_⟩
  · intro hp hf
    simp [StepBootVaultOptions.Run, h1, h2, h3, h4, h5, h6,
      StepBootVaultOptions.createIngressConfig, StepBootVaultOptions.providerConfig,
      StepBootVaultOptions.newVaultOptions, hp, hf]
  · intro hp hf hz
    simp [StepBootVaultOptions.Run, h1, h2, h3, h4, h5, h6,
      StepBootVaultOptions.createIngressConfig, StepBootVaultOptions.providerConfig,
      StepBootVaultOptions.newVaultOptions, hp, hf, hz]
  · intro hp hr
    have hg : requirements.Cluster.Provider ≠ cloud.GKE := by
      rcases hp with hp | hp <;> rw [hp] <;> decide
    simp [StepBootVaultOptions.Run, h1, h2, h3, h4, h5, h6,
      StepBootVaultOptions.createIngressConfig, StepBootVaultOptions.providerConfig,
      StepBootVaultOptions.newVaultOptions, hp, hr, hg]
  · intro hp hf hz
    simp only [StepBootVaultOptions.Run, h1, h2, h3, h4, h5, h6,
      StepBootVaultOptions.createIngressConfig, StepBootVaultOptions.providerConfig,
      StepBootVaultOptions.newVaultOptions, hp, hf, hz,
      withVaultName_provider, withVaultName_projectID, withVaultName_zone, if_true, if_false,
      ne_eq, not_true_eq_false, not_false_eq_true]
    repeat' split
    all_goals simp
  · intro hp hr
    have hg : requirements.Cluster.Provider ≠ cloud.GKE := by
      rcases hp with hp | hp <;> rw [hp] <;> decide
    simp only [StepBootVaultOptions.Run, h1, h2, h3, h4, h5, h6,
      StepBootVaultOptions.createIngressConfig, StepBootVaultOptions.providerConfig,
      StepBootVaultOptions.newVaultOptions, hp, hr, hg,
      withVaultName_provider, withVaultName_region, if_true, if_false,
      ne_eq, not_true_eq_false, not_false_eq_true]
    repeat' split
    all_goals simp
  · intro hg ha he
    simp only [StepBootVaultOptions.Run, h1, h2, h3, h4, h5, h6,
      StepBootVaultOptions.createIngressConfig, StepBootVaultOptions.providerConfig,
      StepBootVaultOptions.newVaultOptions, hg, ha, he,
      withVaultName_provider, if_true, if_false, or_self,
      ne_eq, not_true_eq_false, not_false_eq_true]
    repeat' split
    all_goals simp

/-- C2: when every step before the existence query succeeds and `FindVault`
reports that the system vault exists, `Run` returns `nil` and never invokes
`CreateVault`. -/
theorem run_existing_vault_no_create (o : StepBootVaultOptions) (w : World)
    (ns : String) (requirements : config.RequirementsConfig) (requirementsFile : String)
    (kubeClient : KubeClientHandle) (systemVaultName : String) (ic : kube.IngressConfig)
    (cvo : create.CreateVaultOptions) (vaultOperatorClient : VaultClientHandle)
    (h : ReachesFindVault o w ns requirements requirementsFile kubeClient systemVaultName ic cvo
      vaultOperatorClient)
    (hfound : w.FindVault vaultOperatorClient systemVaultName ns = true) :
    (o.Run w).err = none ∧ ∀ e ∈ (o.Run w).trace, e.isCreateVault = false := by
  obtain ⟨⟨h1, h2, h3, h4, h5, h6⟩, h7, h8, h9, h10, h11, h12⟩ := h
  have hv := verifyVaultIngress_not_provisioning o w (withVaultName requirements systemVaultName)
    kubeClient ns systemVaultName
  have hp := providerConfig_not_mutation
    (StepBootVaultOptions.newVaultOptions (o.CommonOptions.SetDevNamespace ns) ns ic
      (o.verifyVaultIngress w (withVaultName requirements systemVaultName)
        kubeClient ns systemVaultName).attempted)
    (withVaultName requirements systemVaultName) requirementsFile
  simp only [kube.DefaultModifyConfigMap, StepBootVaultOptions.storeSystemVault] at h12
  simp only [StepBootVaultOptions.Run, h1, h2, h3, h4, h5, h6, h7, h8, h9, h10, h11, h12, hfound,
    kube.DefaultModifyConfigMap, StepBootVaultOptions.storeSystemVault, ne_eq,
    not_true_eq_false, if_false, if_true]
  refine ⟨trivial, ?_⟩
  simp only [List.forall_mem_append, List.forall_mem_singleton, Event.isCreateVault, and_true,
    true_and]
  exact ⟨fun e he => isCreateVault_of_not_provisioning e (hv e he),
    fun e he => isCreateVault_of_not_provisioning e (isProvisioning_of_not_mutation e (hp e he))⟩

/-- C1: when the namespace is resolved and the requirements are loaded with a
secret storage other than vault, `Run` returns `nil` and its trace holds no
cluster mutation: no `kubectl` run, no `InstallVaultOperator`, no config map
write, no `CreateVault`. -/
theorem run_not_vault_is_noop (o : StepBootVaultOptions) (w : World) (ns : String)
    (requirements : config.RequirementsConfig) (requirementsFile : String)
    (hns : w.GetDeployNamespace o.Namespace = .ok ns)
    (hload : w.LoadRequirementsConfig o.Dir = .ok (requirements, requirementsFile))
    (hkind : requirements.SecretStorage ≠ config.SecretStorageTypeVault) :
    (o.Run w).err = none ∧ ∀ e ∈ (o.Run w).trace, e.isMutation = false := by
  simp [StepBootVaultOptions.Run, hns, hload, hkind, Event.isMutation]

/-- C10: when the existence check reports the template file absent,
`verifyVaultIngress` returns `(false, nil)` and its whole trace is the existence
check followed by the warning: no template read, no temporary file, no write,
no `kubectl apply`. -/
theorem verifyVaultIngress_absent_template (o : StepBootVaultOptions) (w : World)
    (requirements : config.RequirementsConfig) (kubeClient : KubeClientHandle)
    (ns systemVaultName : String)
    (habsent : w.FileExists (w.Join o.Dir "vault-ing.tmpl.yaml") = .ok false) :
    (o.verifyVaultIngress w requirements kubeClient ns systemVaultName).attempted = false ∧
    (o.verifyVaultIngress w requirements kubeClient ns systemVaultName).err = none ∧
    (o.verifyVaultIngress w requirements kubeClient ns systemVaultName).trace =
      [Event.FileExists (w.Join o.Dir "vault-ing.tmpl.yaml"),
       Event.Warnf ("failed to find file " ++ w.Join o.Dir "vault-ing.tmpl.yaml" ++ "\n")] := by
  rw [verifyVaultIngress_absent_eq o w requirements kubeClient ns systemVaultName habsent]
  exact ⟨rfl, rfl, rfl⟩

/-- C4 as stated fails: with the ingress template present and an empty GKE
project, `Run` fails with `MissingRequirement("project", file)` after `kubectl
apply` of the vault ingress has run. -/
theorem run_missing_requirement_after_ingress_apply :
    (sampleOptions.Run
      (sampleWorld (sampleRequirements "vault" "gke" "" "z1" "") true false)).err
      = some (Err.missingRequirement "project" "env/jx-requirements.yml") ∧
    Event.RunCommand "kubectl" ["apply", "--force", "-f", "/tmp/vault-ingress-1", "-n", "jx"]
      ∈ (sampleOptions.Run
        (sampleWorld (sampleRequirements "vault" "gke" "" "z1" "") true false)).trace ∧
    ¬ ∀ e ∈ (sampleOptions.Run
        (sampleWorld (sampleRequirements "vault" "gke" "" "z1" "") true false)).trace,
      e.isMutation = false := by
  decide

/-- C4, amended: when `Run` reaches the provider block and a required field of
the active provider is empty, it fails with `MissingRequirement` before any of
`InstallVaultOperator`, the config map write and `CreateVault`, for every state
of the working directory; `kubectl apply` of the vault ingress has not run
either when the template file is absent, and has run when it is present. -/
theorem run_missing_requirement_before_provisioning (o : StepBootVaultOptions) (w : World)
    (ns : String) (requirements : config.RequirementsConfig) (requirementsFile : String)
    (kubeClient : KubeClientHandle) (systemVaultName : String)
    (h : ReachesProviderBlock o w ns requirements requirementsFile kubeClient systemVaultName)
    (hmissing : ProviderFieldMissing requirements) :
    (∃ field, (o.Run w).err = some (Err.missingRequirement field requirementsFile)) ∧
    (∀ e ∈ (o.Run w).trace, e.isProvisioning = false) ∧
    (w.FileExists (w.Join o.Dir "vault-ing.tmpl.yaml") = .ok false →
      ∀ e ∈ (o.Run w).trace, e.isMutation = false) ∧
    (w.FileExists (w.Join o.Dir "vault-ing.tmpl.yaml") = .ok true →
      ∃ tmpFileName,
        Event.RunCommand "kubectl" ["apply", "--force", "-f", tmpFileName, "-n", ns]
          ∈ (o.Run w).trace) := by
  obtain ⟨h1, h2, h3, h4, h5, h6⟩ := h
  have hv := verifyVaultIngress_not_provisioning o w (withVaultName requirements systemVaultName)
    kubeClient ns systemVaultName
  have hp := fun cvo => providerConfig_not_mutation cvo
    (withVaultName requirements systemVaultName) requirementsFile
  have hfail : ∃ field, ∀ cvo : create.CreateVaultOptions, cvo.GKEProjectID = "" →
      cvo.GKEZone = "" →
      (StepBootVaultOptions.providerConfig cvo (withVaultName requirements systemVaultName)
        requirementsFile).err = some (Err.missingRequirement field requirementsFile) := by
    rcases hmissing with ⟨hg, hf | hz⟩ | ⟨ha, hr⟩
    · exact ⟨"project", fun cvo c1 c2 => by
        simp [StepBootVaultOptions.providerConfig, hg, hf, c1]⟩
    · by_cases hf : requirements.Cluster.ProjectID = ""
      · exact ⟨"project", fun cvo c1 c2 => by
          simp [StepBootVaultOptions.providerConfig, hg, hf, c1]⟩
      · exact ⟨"zone", fun cvo c1 c2 => by
          simp [StepBootVaultOptions.providerConfig, hg, hf, hz, c1, c2]⟩
    · have hg : requirements.Cluster.Provider ≠ cloud.GKE := by
        rcases ha with ha | ha <;> rw [ha] <;> decide
      exact ⟨"region", fun cvo c1 c2 => by
        simp [StepBootVaultOptions.providerConfig, hg, ha, hr]⟩
  obtain ⟨field, hfield⟩ := hfail
  have herr := hfield (StepBootVaultOptions.newVaultOptions (o.CommonOptions.SetDevNamespace ns) ns
    { Domain := (withVaultName requirements systemVaultName).Ingress.Domain, Exposer := "Ingress",
      Email := (withVaultName requirements systemVaultName).Ingress.TLS.Email,
      TLS := (withVaultName requirements systemVaultName).Ingress.TLS.Enabled }
    (o.verifyVaultIngress w (withVaultName requirements systemVaultName)
        kubeClient ns systemVaultName).attempted) rfl rfl
  have hrun : o.Run w = ⟨some (Err.missingRequirement field requirementsFile),
      [Event.GetDeployNamespace o.Namespace, Event.LoadRequirementsConfig o.Dir,
        Event.KubeClient, Event.SystemVaultName]
      ++ (o.verifyVaultIngress w (withVaultName requirements systemVaultName)
        kubeClient ns systemVaultName).trace
      ++ (StepBootVaultOptions.providerConfig
        (StepBootVaultOptions.newVaultOptions (o.CommonOptions.SetDevNamespace ns) ns
          { Domain := (withVaultName requirements systemVaultName).Ingress.Domain,
            Exposer := "Ingress",
            Email := (withVaultName requirements systemVaultName).Ingress.TLS.Email,
            TLS := (withVaultName requirements systemVaultName).Ingress.TLS.Enabled }
          (o.verifyVaultIngress w (withVaultName requirements systemVaultName)
            kubeClient ns systemVaultName).attempted)
        (withVaultName requirements systemVaultName) requirementsFile).trace⟩ := by
    simp only [StepBootVaultOptions.Run, h1, h2, h3, h4, h5, h6, herr,
      StepBootVaultOptions.createIngressConfig, ne_eq, not_true_eq_false, if_false]
    simp
  rw [hrun]
  refine ⟨⟨field, rfl⟩, ?_, ?_, ?_⟩
  · intro e he
    rcases List.mem_append.1 he with he | he
    · rcases List.mem_append.1 he with he | he
      · simp only [List.mem_cons, List.mem_singleton, List.not_mem_nil, or_false] at he
        rcases he with rfl | rfl | rfl | rfl <;> rfl
      · exact hv e he
    · exact isProvisioning_of_not_mutation e (hp _ e he)
  · intro habsent e he
    rw [verifyVaultIngress_absent_eq o w _ kubeClient ns systemVaultName habsent] at he
    rcases List.mem_append.1 he with he | he
    · simp only [List.cons_append, List.nil_append, List.mem_cons, List.mem_singleton,
        List.not_mem_nil, or_false] at he
      rcases he with rfl | rfl | rfl | rfl | rfl | rfl <;> rfl
    · exact hp _ e he
  · intro hpresent
    obtain ⟨tmpFileName, htmp⟩ := verifyVaultIngress_present_applies o w
      (withVaultName requirements systemVaultName) kubeClient ns systemVaultName hpresent h6
    exact ⟨tmpFileName, by simp [htmp]⟩

/-- C5: on a vault requirements document with provider AWS or EKS and a
non-empty region `r`, when every collaborator succeeds and `FindVault` reports
no system vault, `Run` returns `nil`; its provisioning calls are, in this order,
one `InstallVaultOperator`, one config map write whose data maps the system
vault name key to the resolved name and the secrets location key to `"vault"`,
and one `CreateVault` with the resolved name and with `DynamoDBRegion`,
`KMSRegion` and `S3Region` all equal to `r`. -/
theorem run_aws_installs_records_creates (o : StepBootVaultOptions) (w : World)
    (ns : String) (requirements : config.RequirementsConfig) (requirementsFile : String)
    (kubeClient : KubeClientHandle) (systemVaultName : String) (ic : kube.IngressConfig)
    (cvo : create.CreateVaultOptions) (vaultOperatorClient : VaultClientHandle) (r : String)
    (h : ReachesFindVault o w ns requirements requirementsFile kubeClient systemVaultName ic cvo
      vaultOperatorClient)
    (hprovider : requirements.Cluster.Provider = cloud.AWS ∨
      requirements.Cluster.Provider = cloud.EKS)
    (hregion : requirements.Cluster.Region = r) (hr : r ≠ "")
    (hfound : w.FindVault vaultOperatorClient systemVaultName ns = false)
    (hcreate : w.CreateVault cvo vaultOperatorClient systemVaultName
      requirements.Cluster.Provider = none) :
    (o.Run w).err = none ∧
    ∃ data : ConfigMapData,
      (o.Run w).trace.filter Event.isProvisioning =
        [Event.InstallVaultOperator (o.CommonOptions.SetDevNamespace ns) ns,
         Event.ModifyConfigMap ns kube.ConfigMapNameJXInstallConfig data,
         Event.CreateVault cvo vaultOperatorClient systemVaultName
           requirements.Cluster.Provider] ∧
      data.get kube.SystemVaultName = some systemVaultName ∧
      data.get secrets.SecretsLocationKey = some "vault" ∧
      cvo.DynamoDBRegion = r ∧ cvo.KMSRegion = r ∧ cvo.S3Region = r := by
  obtain ⟨⟨h1, h2, h3, h4, h5, h6⟩, h7, h8, h9, h10, h11, h12⟩ := h
  have hv : (o.verifyVaultIngress w (withVaultName requirements systemVaultName)
      kubeClient ns systemVaultName).trace.filter Event.isProvisioning = [] := by
    rw [List.filter_eq_nil_iff]
    intro e he
    simp [verifyVaultIngress_not_provisioning o w _ kubeClient ns systemVaultName e he]
  have hp : (StepBootVaultOptions.providerConfig
      (StepBootVaultOptions.newVaultOptions (o.CommonOptions.SetDevNamespace ns) ns ic
        (o.verifyVaultIngress w (withVaultName requirements systemVaultName)
          kubeClient ns systemVaultName).attempted)
      (withVaultName requirements systemVaultName) requirementsFile).trace.filter
        Event.isProvisioning = [] := by
    rw [List.filter_eq_nil_iff]
    intro e he
    simp [isProvisioning_of_not_mutation e (providerConfig_not_mutation _ _ _ e he)]
  have hg : requirements.Cluster.Provider ≠ cloud.GKE := by
    rcases hprovider with ha | ha <;> rw [ha] <;> decide
  have hcvo : cvo.DynamoDBRegion = r ∧ cvo.KMSRegion = r ∧ cvo.S3Region = r := by
    rw [← h9]
    simp [StepBootVaultOptions.providerConfig, StepBootVaultOptions.newVaultOptions, hg,
      hprovider, hregion, hr]
  simp only [kube.DefaultModifyConfigMap, StepBootVaultOptions.storeSystemVault] at h12
  refine ⟨?_, (((w.GetConfigMap ns kube.ConfigMapNameJXInstallConfig).getD []).set
    kube.SystemVaultName systemVaultName).set secrets.SecretsLocationKey
      secrets.VaultLocationKind, ?_, ?_, ?_, hcvo⟩
  · simp only [StepBootVaultOptions.Run, h1, h2, h3, h4, h5, h6, h7, h8, h9, h10, h11, h12,
      hfound, hcreate, withVaultName_provider,
      kube.DefaultModifyConfigMap, StepBootVaultOptions.storeSystemVault, ne_eq,
      not_true_eq_false, if_false, if_true, Bool.false_eq_true]
  · simp only [StepBootVaultOptions.Run, h1, h2, h3, h4, h5, h6, h7, h8, h9, h10, h11, h12,
      hfound, hcreate, withVaultName_provider,
      kube.DefaultModifyConfigMap, StepBootVaultOptions.storeSystemVault, ne_eq,
      not_true_eq_false, if_false, if_true, Bool.false_eq_true]
    simp only [List.filter_append, hv, hp]
    simp [Event.isProvisioning]
  · rw [ConfigMapData.get_set_other _ _ _ _ (by decide)]
    exact ConfigMapData.get_set_same _ _ _
  · exact ConfigMapData.get_set_same _ _ _

/-- The sample run reaches the provider block. -/
theorem sample_reaches_provider_block (requirements : config.RequirementsConfig)
    (template found : Bool) (hvault : requirements.SecretStorage = "vault") :
    ReachesProviderBlock sampleOptions (sampleWorld requirements template found) "jx"
      requirements "env/jx-requirements.yml" 0 "jx-vault-demo" := by
  refine ⟨rfl, rfl, hvault, rfl, rfl, ?_⟩
  cases template <;> rfl

/-- The sample run on AWS reaches the existence query. -/
theorem sample_reaches_find_vault (template found : Bool) :
    ReachesFindVault sampleOptions
      (sampleWorld (sampleRequirements "vault" "aws" "" "" "us-east-1") template found) "jx"
      (sampleRequirements "vault" "aws" "" "" "us-east-1") "env/jx-requirements.yml" 0
      "jx-vault-demo" sampleIngressConfig (sampleVaultOptions "us-east-1") 1 :=
  ⟨sample_reaches_provider_block _ template found rfl, rfl, by cases template <;> rfl,
    by cases template <;> rfl, rfl, rfl, rfl⟩

/-- Witness of C1: the sample run with local secret storage. -/
theorem run_not_vault_is_noop_witness :
    (sampleRequirements "local" "gke" "" "" "").SecretStorage ≠ config.SecretStorageTypeVault ∧
    (sampleOptions.Run (sampleWorld (sampleRequirements "local" "gke" "" "" "") true false)).err
      = none ∧
    ∀ e ∈ (sampleOptions.Run
        (sampleWorld (sampleRequirements "local" "gke" "" "" "") true false)).trace,
      e.isMutation = false :=
  ⟨by decide, run_not_vault_is_noop sampleOptions
    (sampleWorld (sampleRequirements "local" "gke" "" "" "") true false) "jx"
    (sampleRequirements "local" "gke" "" "" "") "env/jx-requirements.yml" rfl rfl (by decide)⟩

/-- Witness of C2: the sample run on AWS with the system vault in place. -/
theorem run_existing_vault_no_create_witness :
    (sampleOptions.Run
      (sampleWorld (sampleRequirements "vault" "aws" "" "" "us-east-1") true true)).err = none ∧
    ∀ e ∈ (sampleOptions.Run
        (sampleWorld (sampleRequirements "vault" "aws" "" "" "us-east-1") true true)).trace,
      e.isCreateVault = false :=
  run_existing_vault_no_create sampleOptions
    (sampleWorld (sampleRequirements "vault" "aws" "" "" "us-east-1") true true) "jx"
    (sampleRequirements "vault" "aws" "" "" "us-east-1") "env/jx-requirements.yml" 0
    "jx-vault-demo" sampleIngressConfig (sampleVaultOptions "us-east-1") 1
    (sample_reaches_find_vault true true) rfl

/-- Witness of C3: the spec's scenario, GKE with an empty project and zone `z1`. -/
theorem run_missing_requirement_names_field_witness :
    (sampleOptions.Run (sampleWorld (sampleRequirements "vault" "gke" "" "z1" "") false false)).err
      = some (Err.missingRequirement "project" "env/jx-requirements.yml") :=
  (run_missing_requirement_names_field sampleOptions
    (sampleWorld (sampleRequirements "vault" "gke" "" "z1" "") false false) "jx"
    (sampleRequirements "vault" "gke" "" "z1" "") "env/jx-requirements.yml" 0 "jx-vault-demo"
    (sample_reaches_provider_block _ false false rfl)).1 rfl rfl

/-- Witness of C4 as amended: AWS with an empty region and no ingress template. -/
theorem run_missing_requirement_before_provisioning_witness :
    ProviderFieldMissing (sampleRequirements "vault" "aws" "p" "z" "") ∧
    ∀ e ∈ (sampleOptions.Run
        (sampleWorld (sampleRequirements "vault" "aws" "p" "z" "") false false)).trace,
      e.isMutation = false :=
  ⟨Or.inr ⟨Or.inl rfl, rfl⟩,
    (run_missing_requirement_before_provisioning sampleOptions
      (sampleWorld (sampleRequirements "vault" "aws" "p" "z" "") false false) "jx"
      (sampleRequirements "vault" "aws" "p" "z" "") "env/jx-requirements.yml" 0 "jx-vault-demo"
      (sample_reaches_provider_block _ false false rfl) (Or.inr ⟨Or.inl rfl, rfl⟩)).2.2.1 rfl⟩

/-- Witness of C5: the spec's scenario, AWS with region `us-east-1` and no
existing vault. -/
theorem run_aws_installs_records_creates_witness :
    (sampleOptions.Run
      (sampleWorld (sampleRequirements "vault" "aws" "" "" "us-east-1") false false)).err = none ∧
    (sampleVaultOptions "us-east-1").DynamoDBRegion = "us-east-1" ∧
    (sampleVaultOptions "us-east-1").KMSRegion = "us-east-1" ∧
    (sampleVaultOptions "us-east-1").S3Region = "us-east-1" :=
  have h := run_aws_installs_records_creates sampleOptions
    (sampleWorld (sampleRequirements "vault" "aws" "" "" "us-east-1") false false) "jx"
    (sampleRequirements "vault" "aws" "" "" "us-east-1") "env/jx-requirements.yml" 0
    "jx-vault-demo" sampleIngressConfig (sampleVaultOptions "us-east-1") 1 "us-east-1"
    (sample_reaches_find_vault false false) (Or.inl rfl) rfl (by decide) rfl rfl
  ⟨h.1, h.2.choose_spec.2.2.2⟩

/-- Witness of C10: the sample world without an ingress template. -/
theorem verifyVaultIngress_absent_template_witness :
    (sampleOptions.verifyVaultIngress
      (sampleWorld (sampleRequirements "vault" "gke" "p" "z" "") false false)
      (sampleRequirements "vault" "gke" "p" "z" "") 0 "jx" "jx-vault-demo").trace =
      [Event.FileExists "env/vault-ing.tmpl.yaml",
       Event.Warnf "failed to find file env/vault-ing.tmpl.yaml\n"] :=
  (verifyVaultIngress_absent_template sampleOptions
    (sampleWorld (sampleRequirements "vault" "gke" "p" "z" "") false false)
    (sampleRequirements "vault" "gke" "p" "z" "") 0 "jx" "jx-vault-demo" rfl).2.2

end boot

/-! ## Theorems: `jx create git user` -/

namespace cmd

/-- Reading the positional arguments leaves the server flags as they are. -/
@[simp]
theorem readArgs_serverFlags (o : CreateGitUserOptions) :
    o.readArgs.ServerFlags = o.ServerFlags := by
  unfold CreateGitUserOptions.readArgs
  simp only []
  split <;> split <;> rfl

/-- Reading the positional arguments leaves the password as it is. -/
@[simp]
theorem readArgs_password (o : CreateGitUserOptions) :
    o.readArgs.Password = o.Password := by
  unfold CreateGitUserOptions.readArgs
  simp only []
  split <;> split <;> rfl

/-- The loop over the candidates stops at `gitea` when no candidate listed
before it ends in `-gitea`. -/
theorem rangeNames_gitea (name : String) (pre post : List String)
    (hpre : ∀ n ∈ pre, strings.HasSuffix n "-gitea" = false) :
    CreateGitUserOptions.rangeNames name (pre ++ "gitea" :: post) = "gitea" := by
  induction pre with
  | nil => simp [CreateGitUserOptions.rangeNames]
  | cons n pre ih =>
    have hn : strings.HasSuffix n "-gitea" = false := hpre n (List.mem_cons_self _ _)
    have ih := ih (fun m hm => hpre m (List.mem_cons_of_mem _ hm))
    by_cases hg : n = "gitea"
    · simp [CreateGitUserOptions.rangeNames, hg]
    · simp [CreateGitUserOptions.rangeNames, hn, hg, ih]

/-- The loop over the candidates does not end on `gitea` when a candidate ending
in `-gitea` is listed before any `gitea`. -/
theorem rangeNames_ne_gitea (name : String) (pre rest : List String)
    (hfirst : "gitea" ∉ pre) (hsuffix : ∃ n ∈ pre, strings.HasSuffix n "-gitea" = true) :
    CreateGitUserOptions.rangeNames name (pre ++ rest) ≠ "gitea" := by
  induction pre with
  | nil => simp at hsuffix
  | cons n pre ih =>
    have hn : n ≠ "gitea" := fun hn => hfirst (hn ▸ List.mem_cons_self _ _)
    have hfirst2 : "gitea" ∉ pre := fun hm => hfirst (List.mem_cons_of_mem _ hm)
    by_cases hs : strings.HasSuffix n "-gitea" = true
    · simpa [CreateGitUserOptions.rangeNames, hs] using hn
    · obtain ⟨m, hm, hms⟩ := hsuffix
      have hm2 : m ∈ pre := by
        rcases List.mem_cons.1 hm with rfl | hm
        · exact absurd hms hs
        · exact hm
      simpa [CreateGitUserOptions.rangeNames, hs, hn] using ih hfirst2 ⟨m, hm2, hms⟩

/-- After a successful lookup of at least one candidate, `Run` waits for a pod
of one deployment only, the one it selected: the first candidate, or the
outcome of the loop when there are several. -/
theorem run_waits_for_selected (o : CreateGitUserOptions) (w : World) (client : ClientHandle)
    (ns : String) (name0 : String) (rest : List String) (name : String)
    (h : ListsDeployments o w client ns (name0 :: rest)) :
    Event.waitForReadyPodForDeployment client ns name (name0 :: rest) ∈ (o.Run w).trace ↔
      name = (if (name0 :: rest).length > 1 then
        CreateGitUserOptions.rangeNames name0 (name0 :: rest) else name0) := by
  obtain ⟨config, server, h1, h2, h3, h4, h5, h6, h7⟩ := h
  simp only [CreateGitUserOptions.Run, h1, h2, h3, h4, h5, h6, h7, readArgs_serverFlags,
    readArgs_password, ne_eq, not_true_eq_false, if_false]
  repeat' split
  all_goals simp

/-- Whenever `Run` gets as far as the remote exec, it returns `nil`, also when
the exec returns an error. -/
theorem run_returns_nil_after_exec (o : CreateGitUserOptions) (w : World)
    (client : ClientHandle) (ns : String) (name0 : String) (rest : List String) (pod : String)
    (h : ListsDeployments o w client ns (name0 :: rest))
    (hwait : w.waitForReadyPodForDeployment client ns
      (if (name0 :: rest).length > 1 then
        CreateGitUserOptions.rangeNames name0 (name0 :: rest) else name0)
      (name0 :: rest) = .ok pod)
    (hpod : pod ≠ "") :
    (o.Run w).err = none := by
  obtain ⟨config, server, h1, h2, h3, h4, h5, h6, h7⟩ := h
  simp only [CreateGitUserOptions.Run, h1, h2, h3, h4, h5, h6, h7, hwait, hpod,
    readArgs_serverFlags, readArgs_password, ne_eq, not_true_eq_false, if_false]
  split <;> rfl

/-- C6 fails on the code: in the sample world the remote exec returns an
error, `Run` has validated its input, found the ready pod `gitea-0` and run the
exec, and it returns `nil`. -/
theorem run_swallows_exec_error :
    (sampleWorld "gitea" ["gitea"] (some (Err.external "exec failed"))).runCommand "kubectl"
      ["exec", "-t", "gitea-0", "--", "/bin/sh", "-c", (sampleOptions "u" "p" "" false).command]
      = some (Err.external "exec failed") ∧
    Event.runCommand "kubectl"
      ["exec", "-t", "gitea-0", "--", "/bin/sh", "-c", (sampleOptions "u" "p" "" false).command]
      ∈ ((sampleOptions "u" "p" "" false).Run
        (sampleWorld "gitea" ["gitea"] (some (Err.external "exec failed")))).trace ∧
    ((sampleOptions "u" "p" "" false).Run
      (sampleWorld "gitea" ["gitea"] (some (Err.external "exec failed")))).err = none := by
  decide

/-- C7 as stated fails: with the candidates listed as `foo-gitea`, `gitea` the
list contains `gitea` and `Run` waits for a pod of `foo-gitea`, not of `gitea`. -/
theorem run_selects_first_suffix_match :
    "gitea" ∈ ["foo-gitea", "gitea"] ∧
    Event.waitForReadyPodForDeployment 0 "jx" "foo-gitea" ["foo-gitea", "gitea"]
      ∈ ((sampleOptions "u" "p" "" false).Run
        (sampleWorld "gitea" ["foo-gitea", "gitea"] none)).trace ∧
    Event.waitForReadyPodForDeployment 0 "jx" "gitea" ["foo-gitea", "gitea"]
      ∉ ((sampleOptions "u" "p" "" false).Run
        (sampleWorld "gitea" ["foo-gitea", "gitea"] none)).trace := by
  decide

/-- C7, amended: for every list of candidates that contains `gitea`, the
deployment `Run` selects, and waits on, is `gitea` if and only if no candidate
ending in `-gitea` is listed before the first `gitea`; the choice depends on
the order of the list. -/
theorem run_selects_gitea_iff_listed_first (o : CreateGitUserOptions) (w : World)
    (client : ClientHandle) (ns : String) (names pre post : List String)
    (h : ListsDeployments o w client ns names)
    (hnames : names = pre ++ "gitea" :: post) (hfirst : "gitea" ∉ pre) :
    Event.waitForReadyPodForDeployment client ns "gitea" names ∈ (o.Run w).trace ↔
      ∀ n ∈ pre, strings.HasSuffix n "-gitea" = false := by
  subst hnames
  cases pre with
  | nil =>
    rw [List.nil_append, run_waits_for_selected o w client ns "gitea" post "gitea" h]
    have hsel : (if ("gitea" :: post).length > 1 then
        CreateGitUserOptions.rangeNames "gitea" ("gitea" :: post) else "gitea") = "gitea" := by
      split
      · simp [CreateGitUserOptions.rangeNames]
      · rfl
    rw [hsel]
    simp
  | cons n pre =>
    rw [List.cons_append,
      run_waits_for_selected o w client ns n (pre ++ "gitea" :: post) "gitea" h]
    have hlen : (n :: (pre ++ "gitea" :: post)).length > 1 := by simp
    rw [if_pos hlen]
    constructor
    · intro hsel
      by_contra hex
      have hsuffix : ∃ m ∈ n :: pre, strings.HasSuffix m "-gitea" = true := by
        by_contra hnone
        exact hex (fun m hm => by
          cases hs : strings.HasSuffix m "-gitea"
          · rfl
          · exact absurd ⟨m, hm, hs⟩ hnone)
      exact rangeNames_ne_gitea n (n :: pre) ("gitea" :: post) hfirst hsuffix hsel.symm
    · intro hpre
      exact (rangeNames_gitea n (n :: pre) post hpre).symm

/-- Witness of C7 as amended: the candidates listed as `gitea`, `foo-gitea`. -/
theorem run_selects_gitea_iff_listed_first_witness :
    Event.waitForReadyPodForDeployment 0 "jx" "gitea" ["gitea", "foo-gitea"]
      ∈ ((sampleOptions "u" "p" "" false).Run
        (sampleWorld "gitea" ["gitea", "foo-gitea"] none)).trace :=
  (run_selects_gitea_iff_listed_first (sampleOptions "u" "p" "" false)
    (sampleWorld "gitea" ["gitea", "foo-gitea"] none) 0 "jx" ["gitea", "foo-gitea"] []
    ["foo-gitea"]
    ⟨[], { Name := "local", URL := "http://gitea.jx", Kind := "gitea" }, rfl, rfl, rfl,
      by decide, by decide, rfl, rfl⟩
    rfl (by simp)).2 (by simp)

/-- C8: when the server found is not of kind `gitea`, or the username is empty,
or the password is empty, `Run` returns an error and its trace holds no cluster
interaction: no client, no deployment lookup, no wait for a pod, no remote
exec. -/
theorem run_rejects_before_cluster (o : CreateGitUserOptions) (w : World)
    (h : (∃ config server, w.CreateGitAuthConfigService = .ok config ∧
        w.findGitServer config o.ServerFlags = .ok server ∧ server.Kind ≠ "gitea") ∨
      o.readArgs.Username = "" ∨ o.Password = "") :
    (o.Run w).err ≠ none ∧ ∀ e ∈ (o.Run w).trace, e.isClusterInteraction = false := by
  unfold CreateGitUserOptions.Run
  simp only [readArgs_serverFlags, readArgs_password]
  split
  · simp [Event.isClusterInteraction]
  · rename_i config hconfig
    split
    · simp [Event.isClusterInteraction]
    · rename_i server hserver
      by_cases hkind : server.Kind = "gitea"
      · have hup : o.readArgs.Username = "" ∨ o.Password = "" := by
          rcases h with ⟨config2, server2, hc, hs, hk⟩ | h
          · rw [hconfig] at hc
            cases hc
            rw [hserver] at hs
            cases hs
            exact absurd hkind hk
          · exact h
        by_cases hu : o.readArgs.Username = ""
        · simp [hkind, hu, Event.isClusterInteraction]
        · have hpw : o.Password = "" := hup.resolve_left hu
          simp [hkind, hu, hpw, Event.isClusterInteraction]
      · simp [hkind, Event.isClusterInteraction]

/-- Witness of C8: a server of kind `github`. -/
theorem run_rejects_before_cluster_witness :
    ((sampleOptions "u" "p" "" false).Run (sampleWorld "github" ["gitea"] none)).err ≠ none ∧
    ∀ e ∈ ((sampleOptions "u" "p" "" false).Run (sampleWorld "github" ["gitea"] none)).trace,
      e.isClusterInteraction = false :=
  run_rejects_before_cluster (sampleOptions "u" "p" "" false)
    (sampleWorld "github" ["gitea"] none)
    (Or.inl ⟨[], { Name := "local", URL := "http://gitea.jx", Kind := "github" }, rfl, rfl,
      by decide⟩)

/-- A text found in the front part of a string is found in the whole string. -/
theorem containsChars_append (s t substr : List Char)
    (h : strings.containsChars s substr = true) :
    strings.containsChars (s ++ t) substr = true := by
  induction s with
  | nil =>
    have hnil : substr = [] := by
      cases substr with
      | nil => rfl
      | cons c cs => simp [strings.containsChars, List.isPrefixOf] at h
    subst hnil
    cases t <;> simp [strings.containsChars, List.isPrefixOf]
  | cons c s ih =>
    simp only [strings.containsChars, Bool.or_eq_true] at h
    simp only [List.cons_append, strings.containsChars, Bool.or_eq_true]
    rcases h with h | h
    · left
      rw [List.isPrefixOf_iff_prefix] at h ⊢
      exact h.trans (List.prefix_append (c :: s) t)
    · right
      exact ih h

/-- Whatever the options, `IsAdmin` included, the command built by `Run`
contains the `--admin` flag: it is part of the text the command starts with. -/
theorem command_always_has_admin_flag (o : CreateGitUserOptions) :
    strings.Contains o.command "--admin" = true := by
  have hbase : strings.containsChars
      ("/app/gitea/gitea admin create-user --admin --name ").data ("--admin").data = true := by
    decide
  unfold strings.Contains CreateGitUserOptions.command
  simp only []
  split_ifs <;>
    simp only [String.data_append, List.append_assoc] <;>
    exact containsChars_append _ _ _ hbase

/-- C9 fails on the code: for the user `u` with password `p`, no email and
`IsAdmin` unset, none of which contains `--admin`, the command built by `Run`
contains the `--admin` flag. -/
theorem command_has_admin_flag_without_isAdmin :
    (sampleOptions "u" "p" "" false).IsAdmin = false ∧
    (sampleOptions "u" "p" "" false).command
      = "/app/gitea/gitea admin create-user --admin --name u --password p" ∧
    strings.Contains (sampleOptions "u" "p" "" false).command "--admin" = true := by
  decide

end cmd
